import Mathlib

/-!
# Verification of the caustic-simulator core (`src/refract.h`, `src/main.cpp`)

Shallow embedding of the numerical pipeline: OBJ geometry parsing
(`ParseOBJ`), vector refraction under Snell's law (`Refract`), and ray/plane
intersection with coordinate normalization (`CalculateIntersections`),
together with the relevant caller logic of `main`.

Modelling conventions:
* C++ `double` values are modelled as real numbers (`ℝ`); numeric literals
  appearing in the source (`0.9999`, `1e-9`, `128.0`, ...) are the
  corresponding exact rationals cast to `ℝ`.
* The numbers produced by the text parser are modelled as exact rationals
  (`ℚ`), so that the parsing stage is fully computable and decidable; they
  are cast to `ℝ` at the point where `main` hands the parsed geometry to the
  numeric pipeline.
* A C++ output parameter (`std::vector<...> *`) is modelled by passing the
  container's prior contents in and returning the new contents; `clear()`
  becomes starting from `[]`, `push_back`/`emplace_back` becomes appending.
* A thrown exception (`std::stod` on a token with no numeric prefix) is
  modelled by `Except Unit`; `main`'s `catch`/early-`return` paths are
  modelled by `Option` in `mainPipeline`.
* `std::cerr` diagnostics are modelled by Boolean predicates mirroring the
  condition guarding each `cerr` statement.
-/

namespace Caustics

/-- A 3D vector with exact rational components: the parser's view of an
Eigen `Vector3d` holding exactly-parsed decimal values. -/
structure Vec3Q where
  x : ℚ
  y : ℚ
  z : ℚ
deriving DecidableEq, Repr

/-- A 3D vector of reals: `Eigen::Vector3d` in the numeric pipeline. -/
@[ext] structure Vec3 where
  x : ℝ
  y : ℝ
  z : ℝ

/-- A 2D vector of reals: `Eigen::Vector2d`. -/
@[ext] structure Vec2 where
  x : ℝ
  y : ℝ

/-- Cast an exactly-parsed vector into the real-valued pipeline. -/
noncomputable def Vec3Q.toVec3 (v : Vec3Q) : Vec3 := ⟨(v.x : ℝ), (v.y : ℝ), (v.z : ℝ)⟩

/-- Scalar multiplication `a * v` on `Eigen::Vector3d` (componentwise). -/
noncomputable def smul3 (a : ℝ) (v : Vec3) : Vec3 := ⟨a * v.x, a * v.y, a * v.z⟩

/-- Vector subtraction `u - v` on `Eigen::Vector3d` (componentwise). -/
noncomputable def sub3 (u v : Vec3) : Vec3 := ⟨u.x - v.x, u.y - v.y, u.z - v.z⟩

/-! ## Geometry loading (`ParseOBJ`, refract.h lines 61-139) -/

/-- `SplitLine`'s loop over a single-character delimiter `' '` (the only
delimiter the source ever passes): split at every space, keeping empty
tokens, with the trailing token pushed when no delimiter remains. -/
def splitLineAux : List Char → List Char → List (List Char)
  | [], cur => [cur.reverse]
  | c :: rest, cur =>
    if c = ' ' then cur.reverse :: splitLineAux rest []
    else splitLineAux rest (c :: cur)

/-- `SplitLine(s, " ")` from refract.h lines 61-77. -/
def SplitLine (s : List Char) : List (List Char) := splitLineAux s []

/-- One step of `parseDigitsAux`: accumulated value, count of digits
consumed, remaining characters. -/
def parseDigitsAux : List Char → ℕ → ℕ → ℕ × ℕ × List Char
  | [], acc, count => (acc, count, [])
  | c :: rest, acc, count =>
    if c.isDigit then parseDigitsAux rest (10 * acc + (c.toNat - 48)) (count + 1)
    else (acc, count, c :: rest)

/-- Model of `std::stod` on an unsigned decimal literal: longest prefix of
digits, optionally followed by `.` and further digits.  `none` models the
`std::invalid_argument` exception thrown when no conversion can be
performed (e.g. on an empty token). Exponent/hex/inf forms never occur in
the inputs this repository reads and are not modelled. -/
def stodUnsigned (s : List Char) : Option ℚ :=
  let r := parseDigitsAux s 0 0
  match r.2.2 with
  | '.' :: rest2 =>
    let rf := parseDigitsAux rest2 0 0
    if r.2.1 = 0 ∧ rf.2.1 = 0 then none
    else some ((r.1 : ℚ) + (rf.1 : ℚ) / (10 : ℚ) ^ rf.2.1)
  | _ => if r.2.1 = 0 then none else some (r.1 : ℚ)

/-- Model of `std::stod`: optional leading whitespace and sign, then an
unsigned decimal literal; trailing non-numeric characters are ignored
(stod converts the longest valid prefix). -/
def stod (s : List Char) : Option ℚ :=
  match s.dropWhile (fun c => c == ' ' || c == '\t') with
  | '-' :: rest => (stodUnsigned rest).map (fun q => -q)
  | '+' :: rest => stodUnsigned rest
  | s1 => stodUnsigned s1

/-- `pre` is a prefix of `s`: models `line.rfind(pre, 0) == 0`. -/
def begins : List Char → List Char → Bool
  | [], _ => true
  | _ :: _, [] => false
  | p :: ps, c :: cs => p == c && begins ps cs

/-- The body of `ParseOBJ`'s `while (std::getline(...))` loop for one line
(refract.h lines 95-131): skip short lines, parse `"v "` lines into
vertices and lines beginning with `"vn"` into normals (each requiring at
least 4 space-split tokens), skip `"vt"` and everything else.  A `stod`
failure on any of the three required fields propagates as an exception. -/
def parseLine (acc : List Vec3Q × List Vec3Q) (line : List Char) :
    Except Unit (List Vec3Q × List Vec3Q) :=
  if line.length < 2 then .ok acc
  else if begins ['v', ' '] line then
    match SplitLine line with
    | _ :: t1 :: t2 :: t3 :: _ =>
      match stod t1, stod t2, stod t3 with
      | some x, some y, some z => .ok (acc.1 ++ [⟨x, y, z⟩], acc.2)
      | _, _, _ => .error ()
    | _ => .ok acc
  else if begins ['v', 'n'] line then
    match SplitLine line with
    | _ :: t1 :: t2 :: t3 :: _ =>
      match stod t1, stod t2, stod t3 with
      | some nx, some ny, some nz => .ok (acc.1, acc.2 ++ [⟨nx, ny, nz⟩])
      | _, _, _ => .error ()
    | _ => .ok acc
  else .ok acc

/-- The `while (std::getline(file, line))` loop of `ParseOBJ`: process the
lines in order, threading the two containers; a thrown exception aborts
the whole loop. -/
def parseLines (acc : List Vec3Q × List Vec3Q) :
    List (List Char) → Except Unit (List Vec3Q × List Vec3Q)
  | [] => .ok acc
  | line :: rest =>
    match parseLine acc line with
    | .error e => .error e
    | .ok acc1 => parseLines acc1 rest

/-- `ParseOBJ` (refract.h lines 81-139).  The geometry source is
`none` when the file cannot be opened (in which case the function prints a
diagnostic and returns with the containers untouched), otherwise the list
of its lines.  `vertices`/`normals` are the prior contents of the two
output containers, which `ParseOBJ` appends to (it never clears them). -/
def ParseOBJ (source : Option (List (List Char)))
    (vertices normals : List Vec3Q) : Except Unit (List Vec3Q × List Vec3Q) :=
  match source with
  | none => .ok (vertices, normals)
  | some lines => parseLines (vertices, normals) lines

/-- The `cerr` diagnostic at refract.h line 90: emitted iff the OBJ file
could not be opened. -/
def CouldNotOpenWarning (source : Option (List (List Char))) : Bool :=
  source.isNone

/-- The `cerr` sanity-check diagnostic at refract.h lines 136-138: emitted
iff parsing found no vertices or no normals. -/
def EmptyGeometryWarning (vertices normals : List Vec3Q) : Bool :=
  vertices.isEmpty || normals.isEmpty

/-! ## Refraction (`Refract`, refract.h lines 144-176) -/

/-- The fixed incident direction `(0, 0, 1)` (refract.h line 156). -/
noncomputable def incidentDir : Vec3 := ⟨0, 0, 1⟩

/-- The fixed total-internal-reflection substitute direction
`(0.9999, 0.0, 0.0141418)` (refract.h line 157). -/
noncomputable def TIRdir : Vec3 := ⟨0.9999, 0, 0.0141418⟩

/-- The body of `Refract`'s loop for one normal (refract.h lines 159-175):
Snell's law in vector form when `sin2RefractedAngle ≤ 1`, the fixed TIR
substitute otherwise. -/
noncomputable def refractOne (eta : ℝ) (N : Vec3) : Vec3 :=
  let cosIncidenceAngle := N.z
  let sin2RefractedAngle := eta * eta * (1 - cosIncidenceAngle * cosIncidenceAngle)
  if sin2RefractedAngle ≤ 1 then
    let sqrtTerm := Real.sqrt (1 - sin2RefractedAngle)
    sub3 (smul3 eta incidentDir) (smul3 (eta * cosIncidenceAngle - sqrtTerm) N)
  else TIRdir

/-- `Refract` (refract.h lines 144-176): clears the output container, then
pushes one refracted direction per normal, in order.  `refracteds` is the
prior contents of the output container, discarded by `clear()`. -/
noncomputable def Refract (normals : List Vec3) (refracteds : List Vec3)
    (eta : ℝ) : List Vec3 :=
  let cleared : List Vec3 := []
  cleared ++ normals.map (refractOne eta)

/-! ## Intersection (`CalculateIntersections`, refract.h lines 180-218) -/

/-- The body of `CalculateIntersections`' loop for one aligned pair
`(vertex, refracted)` (refract.h lines 198-217): sentinel
`(-9999, -9999)` when the direction is near-parallel to the plane,
otherwise the scaled ray/plane intersection. -/
noncomputable def intersectOne (receiverPlane : ℝ) (vr : Vec3 × Vec3) : Vec2 :=
  let denom := vr.2.z
  if |denom| < 1e-9 then ⟨-9999, -9999⟩
  else
    let t := (receiverPlane - vr.1.z) / denom
    let ix := vr.1.x + vr.2.x * t
    let iy := vr.1.y + vr.2.y * t
    ⟨ix * 128 + 128, iy * 128 + 128⟩

/-- `CalculateIntersections` (refract.h lines 180-218): clears the output
container, then iterates over `min(len(vertices), len(refracteds))`
aligned pairs, pushing one 2D point per pair.  `intersections` is the
prior contents of the output container, discarded by `clear()`. -/
noncomputable def CalculateIntersections (vertices refracteds : List Vec3)
    (intersections : List Vec2) (receiverPlane : ℝ) : List Vec2 :=
  let cleared : List Vec2 := []
  cleared ++ (vertices.zip refracteds).map (intersectOne receiverPlane)

/-- The `cerr` diagnostic at refract.h lines 188-192: emitted iff the two
input arrays differ in length. -/
def SizeMismatchWarning (vertices refracteds : List Vec3) : Bool :=
  vertices.length != refracteds.length

/-! ## Caller logic (`main`, main.cpp lines 53-131) -/

/-- The pipeline portion of `main` (main.cpp lines 76-130): parse the OBJ
source into fresh containers; on a parse exception return with code 2
(`none`); if no vertices or no normals were found, return with code 2
(`none`); otherwise refract with the given `eta` and compute the
intersections at the given plane distance. -/
noncomputable def mainPipeline (source : Option (List (List Char)))
    (eta planeZ : ℝ) :
    Option (List Vec3Q × List Vec3Q × List Vec3 × List Vec2) :=
  match ParseOBJ source [] [] with
  | .error _ => none
  | .ok (vertices, normals) =>
    if vertices.isEmpty || normals.isEmpty then none
    else
      let verticesR := vertices.map Vec3Q.toVec3
      let normalsR := normals.map Vec3Q.toVec3
      let refracteds := Refract normalsR [] eta
      let intersections := CalculateIntersections verticesR refracteds [] planeZ
      some (vertices, normals, refracteds, intersections)

deriving instance DecidableEq for Except

/-! ## Theorems -/

/-! ### Branch-evaluation helper lemmas -/

lemma refractOne_of_le {eta : ℝ} {N : Vec3}
    (h : eta * eta * (1 - N.z * N.z) ≤ 1) :
    refractOne eta N =
      sub3 (smul3 eta incidentDir)
        (smul3 (eta * N.z - Real.sqrt (1 - eta * eta * (1 - N.z * N.z))) N) := by
  unfold refractOne
  simp only [if_pos h]

lemma refractOne_of_tir {eta : ℝ} {N : Vec3}
    (h : ¬ eta * eta * (1 - N.z * N.z) ≤ 1) :
    refractOne eta N = TIRdir := by
  unfold refractOne
  simp only [if_neg h]

lemma intersectOne_of_small {receiverPlane : ℝ} {P D : Vec3}
    (h : |D.z| < 1e-9) :
    intersectOne receiverPlane (P, D) = ⟨-9999, -9999⟩ := by
  unfold intersectOne
  simp only [if_pos h]

lemma intersectOne_of_large {receiverPlane : ℝ} {P D : Vec3}
    (h : ¬ |D.z| < 1e-9) :
    intersectOne receiverPlane (P, D) =
      ⟨(P.x + D.x * ((receiverPlane - P.z) / D.z)) * 128 + 128,
       (P.y + D.y * ((receiverPlane - P.z) / D.z)) * 128 + 128⟩ := by
  unfold intersectOne
  simp only [if_neg h]

/-- C1: `Refract` returns exactly one refracted direction per input normal,
in input order, and for each normal `N` with
`sin2T = eta^2 * (1 - N.z^2) ≤ 1` the output element equals
`eta*(0,0,1) - (eta*N.z - sqrt(1 - sin2T))*N`, with no normalization
applied to the result. -/
theorem refract_snell_formula (normals refracteds0 : List Vec3) (eta : ℝ) :
    (Refract normals refracteds0 eta).length = normals.length ∧
    ∀ (i : ℕ) (N : Vec3), normals[i]? = some N →
      eta ^ 2 * (1 - N.z ^ 2) ≤ 1 →
      (Refract normals refracteds0 eta)[i]? =
        some ⟨-((eta * N.z - Real.sqrt (1 - eta ^ 2 * (1 - N.z ^ 2))) * N.x),
              -((eta * N.z - Real.sqrt (1 - eta ^ 2 * (1 - N.z ^ 2))) * N.y),
              eta - (eta * N.z - Real.sqrt (1 - eta ^ 2 * (1 - N.z ^ 2))) * N.z⟩ := by
  constructor
  · simp [Refract]
  · intro i N hN h
    have hc : eta * eta * (1 - N.z * N.z) = eta ^ 2 * (1 - N.z ^ 2) := by ring
    simp only [Refract, List.nil_append, List.getElem?_map, hN, Option.map_some']
    unfold refractOne
    simp only [hc]
    rw [if_pos h]
    simp only [sub3, smul3, incidentDir, Option.some.injEq, Vec3.mk.injEq]
    refine ⟨by ring, by ring, by ring⟩

/-- Witness for C1 at `normals = [(0,0,1)]`, `eta = 1`, index `0`. -/
theorem refract_snell_formula_witness :
    ([(⟨0, 0, 1⟩ : Vec3)])[0]? = some (⟨0, 0, 1⟩ : Vec3) ∧
    (1 : ℝ) ^ 2 * (1 - (⟨0, 0, 1⟩ : Vec3).z ^ 2) ≤ 1 ∧
    (Refract [⟨0, 0, 1⟩] [] 1)[0]? = some ⟨0, 0, 1⟩ := by
  refine ⟨rfl, by norm_num, ?_⟩
  have h := (refract_snell_formula [⟨0, 0, 1⟩] [] 1).2 0 ⟨0, 0, 1⟩ rfl (by norm_num)
  simpa [Real.sqrt_one] using h

/-- C2: at each aligned index with `|D.z| ≥ 1e-9`, `CalculateIntersections`
produces the point `(ix*128 + 128, iy*128 + 128)` with
`t = (planeDistance - P.z) / D.z`, `ix = P.x + D.x*t`, `iy = P.y + D.y*t`;
and the output is a pure function of `(positions, refracteds,
planeDistance)`, independent of the output container's prior contents. -/
theorem calculateIntersections_formula (vertices refracteds : List Vec3)
    (prior prior2 : List Vec2) (planeDistance : ℝ) :
    (∀ (i : ℕ) (P D : Vec3), vertices[i]? = some P → refracteds[i]? = some D →
      |D.z| ≥ 1e-9 →
      (CalculateIntersections vertices refracteds prior planeDistance)[i]? =
        some ⟨(P.x + D.x * ((planeDistance - P.z) / D.z)) * 128 + 128,
              (P.y + D.y * ((planeDistance - P.z) / D.z)) * 128 + 128⟩) ∧
    CalculateIntersections vertices refracteds prior planeDistance =
      CalculateIntersections vertices refracteds prior2 planeDistance := by
  constructor
  · intro i P D hP hD h
    have hz : (vertices.zip refracteds)[i]? = some (P, D) :=
      List.getElem?_zip_eq_some.mpr ⟨hP, hD⟩
    simp only [CalculateIntersections, List.nil_append, List.getElem?_map, hz,
      Option.map_some']
    unfold intersectOne
    rw [if_neg (not_lt.mpr h)]
  · rfl

/-- Witness for C2 at `vertices = [(0,0,0)]`, `refracteds = [(0,0,1)]`,
`planeDistance = 5`, index `0`, with two different prior contents of the
output container. -/
theorem calculateIntersections_formula_witness :
    ([(⟨0, 0, 0⟩ : Vec3)])[0]? = some (⟨0, 0, 0⟩ : Vec3) ∧
    ([(⟨0, 0, 1⟩ : Vec3)])[0]? = some (⟨0, 0, 1⟩ : Vec3) ∧
    |(⟨0, 0, 1⟩ : Vec3).z| ≥ 1e-9 ∧
    (CalculateIntersections [⟨0, 0, 0⟩] [⟨0, 0, 1⟩] [] 5)[0]? = some ⟨128, 128⟩ ∧
    CalculateIntersections [⟨0, 0, 0⟩] [⟨0, 0, 1⟩] [] 5 =
      CalculateIntersections [⟨0, 0, 0⟩] [⟨0, 0, 1⟩] [⟨7, 7⟩] 5 := by
  refine ⟨rfl, rfl, by norm_num, ?_, ?_⟩
  · have h := (calculateIntersections_formula [⟨0, 0, 0⟩] [⟨0, 0, 1⟩] [] [] 5).1
      0 ⟨0, 0, 0⟩ ⟨0, 0, 1⟩ rfl rfl (by norm_num)
    simpa using h
  · exact (calculateIntersections_formula [⟨0, 0, 0⟩] [⟨0, 0, 1⟩] [] [⟨7, 7⟩] 5).2

/-- C3 counterexample: at `N = (0,0,-1)` and `eta = 1`, `Refract` does not
return the incident direction `(0,0,1)` (it returns `(0,0,-1)`): the
claimed independence of `N` fails for normals with negative `z`. -/
theorem refract_eta_one_counterexample :
    Refract [(⟨0, 0, -1⟩ : Vec3)] [] 1 ≠ [(⟨0, 0, 1⟩ : Vec3)] := by
  have hone : refractOne 1 (⟨0, 0, -1⟩ : Vec3) = ⟨0, 0, -1⟩ := by
    rw [refractOne_of_le (by norm_num)]
    simp only [sub3, smul3, incidentDir, Vec3.mk.injEq]
    norm_num [Real.sqrt_one]
  simp only [Refract, List.nil_append, List.map_cons, List.map_nil, hone]
  intro h
  have hz := (Vec3.mk.injEq _ _ _ _ _ _).mp (List.cons.injEq _ _ _ _ |>.mp h).1
  norm_num at hz

/-- C3 (amended): for every normal `N` with `N.z ≥ 0`, calling `Refract`
with `eta = 1` produces a refracted direction equal to the incident
direction `(0,0,1)` exactly. -/
theorem refract_eta_one_amended (normals refracteds0 : List Vec3) (i : ℕ)
    (N : Vec3) (hN : normals[i]? = some N) (hz : 0 ≤ N.z) :
    (Refract normals refracteds0 1)[i]? = some ⟨0, 0, 1⟩ := by
  simp only [Refract, List.nil_append, List.getElem?_map, hN, Option.map_some']
  have h1 : (1 : ℝ) * 1 * (1 - N.z * N.z) ≤ 1 := by nlinarith [sq_nonneg N.z]
  rw [refractOne_of_le h1]
  have harg : (1 : ℝ) - 1 * 1 * (1 - N.z * N.z) = N.z * N.z := by ring
  rw [harg, Real.sqrt_mul_self hz]
  simp only [sub3, smul3, incidentDir, Option.some.injEq, Vec3.mk.injEq]
  refine ⟨by ring, by ring, by ring⟩

/-- Witness for the amended C3 at `normals = [(0.6, 0, 0.8)]`, index `0`. -/
theorem refract_eta_one_amended_witness :
    ([(⟨0.6, 0, 0.8⟩ : Vec3)])[0]? = some (⟨0.6, 0, 0.8⟩ : Vec3) ∧
    (0 : ℝ) ≤ (⟨0.6, 0, 0.8⟩ : Vec3).z ∧
    (Refract [⟨0.6, 0, 0.8⟩] [] 1)[0]? = some ⟨0, 0, 1⟩ :=
  ⟨rfl, by norm_num,
    refract_eta_one_amended [⟨0.6, 0, 0.8⟩] [] 0 ⟨0.6, 0, 0.8⟩ rfl (by norm_num)⟩

/-- C4: under total internal reflection (`sin2T > 1`), `Refract` outputs
the single fixed constant vector `(0.9999, 0, 0.0141418)`, whose
z-component has absolute value at least `1e-9`, so that
`CalculateIntersections` applied to it takes the regular (non-degenerate)
branch and yields the finite formula point. -/
theorem refract_tir_substitute (normals refracteds0 : List Vec3) (eta : ℝ)
    (i : ℕ) (N P : Vec3) (prior0 : List Vec2) (planeDistance : ℝ)
    (hN : normals[i]? = some N) (h : 1 < eta ^ 2 * (1 - N.z ^ 2)) :
    (Refract normals refracteds0 eta)[i]? = some ⟨0.9999, 0, 0.0141418⟩ ∧
    (1e-9 : ℝ) ≤ |(0.0141418 : ℝ)| ∧
    (CalculateIntersections [P] [⟨0.9999, 0, 0.0141418⟩] prior0 planeDistance)[0]? =
      some ⟨(P.x + 0.9999 * ((planeDistance - P.z) / 0.0141418)) * 128 + 128,
            (P.y + 0 * ((planeDistance - P.z) / 0.0141418)) * 128 + 128⟩ := by
  have habs : |(0.0141418 : ℝ)| = 0.0141418 := abs_of_pos (by norm_num)
  refine ⟨?_, by rw [habs]; norm_num, ?_⟩
  · have htir : ¬ eta * eta * (1 - N.z * N.z) ≤ 1 := by
      rw [not_le]
      calc (1 : ℝ) < eta ^ 2 * (1 - N.z ^ 2) := h
        _ = eta * eta * (1 - N.z * N.z) := by ring
    simp only [Refract, List.nil_append, List.getElem?_map, hN, Option.map_some',
      refractOne_of_tir htir, TIRdir]
  · have hbig : ¬ |((⟨(0.9999 : ℝ), 0, 0.0141418⟩ : Vec3)).z| < 1e-9 := by
      show ¬ |(0.0141418 : ℝ)| < 1e-9
      rw [habs]; norm_num
    simp only [CalculateIntersections, List.nil_append, List.zip_cons_cons,
      List.zip_nil_right, List.map_cons, List.map_nil,
      intersectOne_of_large hbig, List.getElem?_cons_zero]

/-- Witness for C4 at `normals = [(1,0,0)]`, `eta = 2`, `P = (0,0,0)`,
`planeDistance = 1`. -/
theorem refract_tir_substitute_witness :
    ([(⟨1, 0, 0⟩ : Vec3)])[0]? = some (⟨1, 0, 0⟩ : Vec3) ∧
    (1 : ℝ) < 2 ^ 2 * (1 - (⟨1, 0, 0⟩ : Vec3).z ^ 2) ∧
    ((Refract [⟨1, 0, 0⟩] [] 2)[0]? = some ⟨0.9999, 0, 0.0141418⟩ ∧
     (1e-9 : ℝ) ≤ |(0.0141418 : ℝ)| ∧
     (CalculateIntersections [⟨0, 0, 0⟩] [⟨0.9999, 0, 0.0141418⟩] [] 1)[0]? =
       some ⟨((⟨0, 0, 0⟩ : Vec3).x + 0.9999 * ((1 - (⟨0, 0, 0⟩ : Vec3).z) / 0.0141418)) * 128 + 128,
             ((⟨0, 0, 0⟩ : Vec3).y + 0 * ((1 - (⟨0, 0, 0⟩ : Vec3).z) / 0.0141418)) * 128 + 128⟩) :=
  ⟨rfl, by norm_num,
    refract_tir_substitute [⟨1, 0, 0⟩] [] 2 0 ⟨1, 0, 0⟩ ⟨0, 0, 0⟩ [] 1 rfl (by norm_num)⟩

/-- C6: at every aligned index whose refracted direction has `|D.z| < 1e-9`
(including exactly zero), `CalculateIntersections` emits the fixed sentinel
point `(-9999, -9999)`, whose coordinates lie outside the nominal
`[0,256]×[0,256]` frame, and the output keeps one entry per aligned input
pair (index alignment is preserved, the index is not skipped). -/
theorem calculateIntersections_sentinel (vertices refracteds : List Vec3)
    (prior : List Vec2) (planeDistance : ℝ) (i : ℕ) (P D : Vec3)
    (hP : vertices[i]? = some P) (hD : refracteds[i]? = some D)
    (h : |D.z| < 1e-9) :
    (CalculateIntersections vertices refracteds prior planeDistance)[i]? =
      some ⟨-9999, -9999⟩ ∧
    ¬ (0 ≤ (-9999 : ℝ)) ∧
    (CalculateIntersections vertices refracteds prior planeDistance).length =
      min vertices.length refracteds.length := by
  refine ⟨?_, by norm_num, ?_⟩
  · have hz : (vertices.zip refracteds)[i]? = some (P, D) :=
      List.getElem?_zip_eq_some.mpr ⟨hP, hD⟩
    simp only [CalculateIntersections, List.nil_append, List.getElem?_map, hz,
      Option.map_some', intersectOne_of_small h]
  · simp [CalculateIntersections]

/-- Witness for C6 at `vertices = [(0,0,0)]`, `refracteds = [(1,0,0)]`
(exactly zero z-component), index `0`. -/
theorem calculateIntersections_sentinel_witness :
    ([(⟨0, 0, 0⟩ : Vec3)])[0]? = some (⟨0, 0, 0⟩ : Vec3) ∧
    ([(⟨1, 0, 0⟩ : Vec3)])[0]? = some (⟨1, 0, 0⟩ : Vec3) ∧
    |(⟨1, 0, 0⟩ : Vec3).z| < 1e-9 ∧
    ((CalculateIntersections [⟨0, 0, 0⟩] [⟨1, 0, 0⟩] [] 5)[0]? =
       some ⟨-9999, -9999⟩ ∧
     ¬ (0 ≤ (-9999 : ℝ)) ∧
     (CalculateIntersections [⟨0, 0, 0⟩] [⟨1, 0, 0⟩] [] 5).length =
       min ([(⟨0, 0, 0⟩ : Vec3)]).length ([(⟨1, 0, 0⟩ : Vec3)]).length) :=
  ⟨rfl, rfl, by norm_num,
    calculateIntersections_sentinel [⟨0, 0, 0⟩] [⟨1, 0, 0⟩] [] 5 0 ⟨0, 0, 0⟩
      ⟨1, 0, 0⟩ rfl rfl (by norm_num)⟩

/-- C7: `CalculateIntersections` returns exactly
`min(len(vertices), len(refracteds))` entries (it never aborts on a length
mismatch), and when the lengths differ the mismatch diagnostic is
emitted. -/
theorem calculateIntersections_min_length (vertices refracteds : List Vec3)
    (prior : List Vec2) (planeDistance : ℝ) :
    (CalculateIntersections vertices refracteds prior planeDistance).length =
      min vertices.length refracteds.length ∧
    (vertices.length ≠ refracteds.length →
      SizeMismatchWarning vertices refracteds = true) := by
  constructor
  · simp [CalculateIntersections]
  · intro h
    simpa [SizeMismatchWarning, bne_iff_ne] using h

/-- Witness for C7 with arrays of lengths 5 and 3: exactly 3 output
entries and the mismatch diagnostic fires. -/
theorem calculateIntersections_min_length_witness :
    (CalculateIntersections (List.replicate 5 ⟨0, 0, 0⟩)
        (List.replicate 3 ⟨0, 0, 1⟩) [] 5).length = 3 ∧
    SizeMismatchWarning (List.replicate 5 ⟨0, 0, 0⟩)
      (List.replicate 3 ⟨0, 0, 1⟩) = true := by
  constructor
  · have h := (calculateIntersections_min_length (List.replicate 5 ⟨0, 0, 0⟩)
      (List.replicate 3 ⟨0, 0, 1⟩) [] 5).1
    simpa using h
  · exact (calculateIntersections_min_length (List.replicate 5 ⟨0, 0, 0⟩)
      (List.replicate 3 ⟨0, 0, 1⟩) [] 5).2 (by simp)

/-- C5: evaluating the loader at the failing input.  The position record
`"v  1 2 3"` (two spaces, producing an empty token) reaches `std::stod("")`,
which throws `std::invalid_argument`; the exception propagates out of
`ParseOBJ` and aborts the whole load, instead of the record being skipped
locally. -/
theorem parseOBJ_empty_token_throws :
    ParseOBJ (some [ "v  1 2 3".data ]) [] [] = .error () := by decide

/-- C8 counterexample: in the end-to-end scenario (one position `(0,0,0)`,
one normal `(0,0,1)`, `eta = 1.457`), the refracted direction is `(0,0,1)`
and the projected point is `(128,128)` for `planeDistance = 5.0` and
*also* `(128,128)` for `planeDistance = 5.1`: re-invoking with the new
distance does not change the projected point, contrary to the claim. -/
theorem endToEnd_plane_change_counterexample :
    Refract [(⟨0, 0, 1⟩ : Vec3)] [] 1.457 = [⟨0, 0, 1⟩] ∧
    CalculateIntersections [⟨0, 0, 0⟩] [⟨0, 0, 1⟩] [] 5 = [⟨128, 128⟩] ∧
    CalculateIntersections [⟨0, 0, 0⟩] [⟨0, 0, 1⟩] [] 5.1 = [⟨128, 128⟩] := by
  have hone : refractOne 1.457 (⟨0, 0, 1⟩ : Vec3) = ⟨0, 0, 1⟩ := by
    rw [refractOne_of_le (by norm_num)]
    simp only [sub3, smul3, incidentDir, Vec3.mk.injEq]
    norm_num [Real.sqrt_one]
  have hb : ¬ |((⟨(0 : ℝ), 0, 1⟩ : Vec3)).z| < 1e-9 := by
    show ¬ |(1 : ℝ)| < 1e-9
    rw [abs_one]; norm_num
  refine ⟨?_, ?_, ?_⟩
  · simp only [Refract, List.nil_append, List.map_cons, List.map_nil, hone]
  · simp only [CalculateIntersections, List.nil_append, List.zip_cons_cons,
      List.zip_nil_right, List.map_cons, List.map_nil, intersectOne_of_large hb]
    norm_num [Vec2.mk.injEq]
  · simp only [CalculateIntersections, List.nil_append, List.zip_cons_cons,
      List.zip_nil_right, List.map_cons, List.map_nil, intersectOne_of_large hb]
    norm_num [Vec2.mk.injEq]

/-- C8 (amended): in the end-to-end scenario with exactly one position
record `v 0 0 0`, one normal record `vn 0 0 1`, `eta = 1.457` and
`planeDistance = 5.0`, the pipeline yields the refracted direction
`(0,0,1)` and the projected point `(128,128)`; re-invoking with
`planeDistance = 5.1` leaves the projected point unchanged at `(128,128)`
(the refracted ray is parallel to the optical axis through the origin) and
leaves the positions, normals and refracted directions unchanged. -/
theorem endToEnd_amended :
    mainPipeline (some [ "v 0 0 0".data, "vn 0 0 1".data ]) 1.457 5 =
      some ([⟨0, 0, 0⟩], [⟨0, 0, 1⟩], [⟨0, 0, 1⟩], [⟨128, 128⟩]) ∧
    mainPipeline (some [ "v 0 0 0".data, "vn 0 0 1".data ]) 1.457 5.1 =
      some ([⟨0, 0, 0⟩], [⟨0, 0, 1⟩], [⟨0, 0, 1⟩], [⟨128, 128⟩]) := by
  have hp : ParseOBJ (some [ "v 0 0 0".data, "vn 0 0 1".data ]) [] [] =
      .ok ([⟨0, 0, 0⟩], [⟨0, 0, 1⟩]) := by decide
  have hcast0 : Vec3Q.toVec3 ⟨0, 0, 0⟩ = ⟨0, 0, 0⟩ := by
    simp [Vec3Q.toVec3]
  have hcast1 : Vec3Q.toVec3 ⟨0, 0, 1⟩ = ⟨0, 0, 1⟩ := by
    simp [Vec3Q.toVec3]
  have hone : refractOne 1.457 (⟨0, 0, 1⟩ : Vec3) = ⟨0, 0, 1⟩ := by
    rw [refractOne_of_le (by norm_num)]
    simp only [sub3, smul3, incidentDir, Vec3.mk.injEq]
    norm_num [Real.sqrt_one]
  have hb : ¬ |((⟨(0 : ℝ), 0, 1⟩ : Vec3)).z| < 1e-9 := by
    show ¬ |(1 : ℝ)| < 1e-9
    rw [abs_one]; norm_num
  constructor <;>
  · simp only [mainPipeline, hp, List.isEmpty_cons, Bool.or_self, Bool.false_eq_true,
      if_false, List.map_cons, List.map_nil, hcast0, hcast1, Refract, Bool.or_false,
      CalculateIntersections, List.nil_append, List.zip_cons_cons, List.zip_nil_right,
      hone, intersectOne_of_large hb, Option.some.injEq]
    norm_num [Vec2.mk.injEq]

/-- C9: on an unreadable source the loader returns exactly the prior
(caller-supplied, empty in `main`) contents — it fabricates nothing — and
the could-not-open diagnostic fires; whenever the parse result has zero
positions or zero normals the empty-geometry diagnostic fires and `main`
aborts before ever invoking `Refract` or `CalculateIntersections`. -/
theorem loader_empty_geometry_fatal (v0 n0 : List Vec3Q)
    (source : Option (List (List Char))) (eta planeZ : ℝ)
    (vertices normals : List Vec3Q)
    (hok : ParseOBJ source [] [] = .ok (vertices, normals))
    (hempty : vertices.isEmpty || normals.isEmpty) :
    ParseOBJ none v0 n0 = .ok (v0, n0) ∧
    CouldNotOpenWarning none = true ∧
    EmptyGeometryWarning vertices normals = true ∧
    mainPipeline source eta planeZ = none := by
  refine ⟨rfl, rfl, hempty, ?_⟩
  simp only [mainPipeline, hok, hempty, if_true]

/-- Witness for C9 with an unreadable source (`none`): the loader returns
nothing and the caller aborts. -/
theorem loader_empty_geometry_fatal_witness :
    ParseOBJ none [] [] = .ok ([], []) ∧
    (([] : List Vec3Q).isEmpty || ([] : List Vec3Q).isEmpty) = true ∧
    (ParseOBJ none [] [] = .ok ([], []) ∧
     CouldNotOpenWarning none = true ∧
     EmptyGeometryWarning [] [] = true ∧
     mainPipeline none 1.457 5 = none) :=
  ⟨rfl, rfl, loader_empty_geometry_fatal [] [] none 1.457 5 [] [] rfl rfl⟩

lemma parseLine_shift (v0 n0 : List Vec3Q) (acc : List Vec3Q × List Vec3Q)
    (line : List Char) :
    parseLine (v0 ++ acc.1, n0 ++ acc.2) line =
      (parseLine acc line).map (fun r => (v0 ++ r.1, n0 ++ r.2)) := by
  unfold parseLine
  repeat' split
  all_goals simp [Except.map, List.append_assoc]

lemma parseLines_shift (v0 n0 : List Vec3Q) (lines : List (List Char)) :
    ∀ acc : List Vec3Q × List Vec3Q,
      parseLines (v0 ++ acc.1, n0 ++ acc.2) lines =
        (parseLines acc lines).map (fun r => (v0 ++ r.1, n0 ++ r.2)) := by
  induction lines with
  | nil => intro acc; rfl
  | cons line rest ih =>
    intro acc
    unfold parseLines
    rw [parseLine_shift]
    cases h : parseLine acc line with
    | error e => simp [Except.map]
    | ok acc1 =>
      simp only [Except.map]
      exact ih acc1

/-- C10: `ParseOBJ` appends to the caller-supplied containers without
clearing them — the result always equals the prior contents followed by
what a parse into fresh containers would produce — whereas `Refract` and
`CalculateIntersections` clear their output container first, so their
results never depend on its prior contents. -/
theorem output_container_discipline (source : Option (List (List Char)))
    (v0 n0 : List Vec3Q) (normals vertices refracteds priorR : List Vec3)
    (priorI : List Vec2) (eta planeZ : ℝ) :
    ParseOBJ source v0 n0 =
      (ParseOBJ source [] []).map (fun r => (v0 ++ r.1, n0 ++ r.2)) ∧
    Refract normals priorR eta = Refract normals [] eta ∧
    CalculateIntersections vertices refracteds priorI planeZ =
      CalculateIntersections vertices refracteds [] planeZ := by
  refine ⟨?_, rfl, rfl⟩
  cases source with
  | none => simp [ParseOBJ, Except.map]
  | some lines =>
    have h := parseLines_shift v0 n0 lines ([], [])
    simpa [ParseOBJ] using h

end Caustics
